import Mathlib

/-!
Shallow embedding of the PR-review orchestration engine of this repository
(`opencode_python/agents/review/`): the data contracts
(`models/review.py`, `agents/review/contracts.py`), the base reviewer output
generation (`agents/review/base.py`), the orchestrator aggregation pipeline
(`agents/review/orchestrator.py`), the diff-scoper risk classification and
routing (`agents/review/agents/diff_scoper.py`), and the documentation
reviewer's pattern matcher and severity computation
(`agents/review/agents/documentation.py`).

Python strings are embedded as `String`, lists as `List`, `pydantic`
`Literal` enumerations as inductive types, and `Optional[str]` as
`Option String`.  Python `dict`/`set` uses in the translated code are
insertion-ordered association/membership lists, which matches their use in
the source (membership tests and insertion-ordered iteration only).
-/

namespace OpencodeReview

/-- Characterwise prefix test on char lists (Python `str.startswith`). -/
def listStartsWith : List Char → List Char → Bool
  | _, [] => true
  | [], _ :: _ => false
  | a :: as, b :: bs => a == b && listStartsWith as bs

/-- Contiguous-subsequence test on char lists (Python `pat in s`). -/
def listContainsSeq : List Char → List Char → Bool
  | [], pat => listStartsWith [] pat
  | a :: t, pat => listStartsWith (a :: t) pat || listContainsSeq t pat

/-- Python `pre` tested as a leading substring of `s` (`s.startswith(pre)`). -/
def strStartsWith (s pre : String) : Bool :=
  listStartsWith s.toList pre.toList

/-- Python substring containment `pat in s`. -/
def strContains (s pat : String) : Bool :=
  listContainsSeq s.toList pat.toList

/-- Python `s.endswith(suf)`. -/
def strEndsWith (s suf : String) : Bool :=
  listStartsWith s.toList.reverse suf.toList.reverse

/-- Python slice `s[:n]`. -/
def takeChars (n : Nat) (s : String) : String :=
  String.mk (s.toList.take n)

/-- Python `str.lower` (the review code only feeds it ASCII paths/diffs):
lowercase every character. -/
def strLower (s : String) : String :=
  String.mk (s.toList.map Char.toLower)

/-- Severity lattice of `models/review.py` (`Literal["merge", "warning",
"critical", "blocking"]`). -/
inductive Severity where
  | merge
  | warning
  | critical
  | blocking
deriving DecidableEq, Repr

/-- Confidence levels (`Literal["high", "medium", "low"]`). -/
inductive Confidence where
  | high
  | medium
  | low
deriving DecidableEq, Repr

/-- Owner values (`Literal["dev", "docs", "devops", "security"]`). -/
inductive Owner where
  | dev
  | docs
  | devops
  | security
deriving DecidableEq, Repr

/-- Effort estimate (`Literal["S", "M", "L"]`). -/
inductive Estimate where
  | S
  | M
  | L
deriving DecidableEq, Repr

/-- Merge-gate decisions of `models/review.py` (`Literal["approve",
"approve_with_warnings", "needs_changes", "block", "merge_with_warnings"]`). -/
inductive Decision where
  | approve
  | approve_with_warnings
  | needs_changes
  | block
  | merge_with_warnings
deriving DecidableEq, Repr

/-- `models.review.Finding`. -/
structure Finding where
  id : String
  title : String
  severity : Severity
  confidence : Confidence
  owner : Owner
  estimate : Estimate
  evidence : String
  risk : String
  recommendation : String
  suggested_patch : Option String
deriving DecidableEq, Repr

/-- `models.review.MergeGate`. -/
structure MergeGate where
  decision : Decision
  must_fix : List String
  should_fix : List String
  notes_for_coding_agent : List String
deriving DecidableEq, Repr

/-- `models.review.ReviewScope`. -/
structure ReviewScope where
  relevant_files : List String
  ignored_files : List String
  reasoning : String
deriving DecidableEq, Repr

/-- `models.review.Check`. -/
structure Check where
  name : String
  required : Bool
  commands : List String
  why : String
  expected_signal : String
deriving DecidableEq, Repr

/-- `models.review.Skip`. -/
structure Skip where
  name : String
  why_safe : String
  when_to_run : String
deriving DecidableEq, Repr

/-- `models.review.ReviewOutput`, one per reviewer. -/
structure ReviewOutput where
  agent : String
  summary : String
  severity : Severity
  scope : ReviewScope
  checks : List Check
  skips : List Skip
  findings : List Finding
  merge_gate : MergeGate
deriving DecidableEq, Repr

/-- `models.review.OrchestratorFinding`. -/
structure OrchestratorFinding where
  id : String
  source_agents : List String
  title : String
  severity : Severity
  confidence : Confidence
  evidence : String
  recommendation : String
  suggested_patch : Option String
  owner : Owner
  estimate : Estimate
deriving DecidableEq, Repr

/-- `models.review.OrchestratorSummary`; `risk_level` is one of
`"low"`, `"medium"`, `"high"` as in the source. -/
structure OrchestratorSummary where
  change_intent : String
  risk_level : String
  high_risk_areas : List String
  changed_files_count : Nat
deriving DecidableEq, Repr

/-- `models.review.OrchestratorToolCheck`. -/
structure OrchestratorToolCheck where
  name : String
  required : Bool
  commands : List String
  scope : List String
  why : String
  expected_signal : String
deriving DecidableEq, Repr

/-- `models.review.OrchestratorSkippedCheck`. -/
structure OrchestratorSkippedCheck where
  name : String
  why_safe : String
  when_to_run : String
deriving DecidableEq, Repr

/-- `models.review.OrchestratorObservedOutput`. -/
structure OrchestratorObservedOutput where
  check : String
  status : String
  evidence : String
deriving DecidableEq, Repr

/-- `models.review.OrchestratorToolPlan`. -/
structure OrchestratorToolPlan where
  recommended_checks : List OrchestratorToolCheck
  skipped_checks : List OrchestratorSkippedCheck
  observed_outputs : List OrchestratorObservedOutput
deriving DecidableEq, Repr

/-- `models.review.OrchestratorRollup`. -/
structure OrchestratorRollup where
  final_severity : Severity
  final_decision : Decision
  rationale : String
  findings : List OrchestratorFinding
deriving DecidableEq, Repr

/-- `models.review.OrchestratorOutput`.  The source stores
`subagent_results` as JSON dumps of each `ReviewOutput`; the embedding keeps
them structured (`model_dump`/re-validation round-trips losslessly). -/
structure OrchestratorOutput where
  summary : OrchestratorSummary
  tool_plan : OrchestratorToolPlan
  rollup : OrchestratorRollup
  findings : List OrchestratorFinding
  subagent_results : List ReviewOutput
  merge_gate : MergeGate
deriving DecidableEq, Repr

/-- The loop of `PRReviewOrchestrator._determine_final_severity`: iterate
over the findings and return on the first one whose severity matches
blocking, then critical, then warning; a `"merge"`-severity finding takes no
branch and the loop continues. -/
def severityScan : List OrchestratorFinding → Severity
  | [] => .merge
  | f :: rest =>
    match f.severity with
    | .blocking => .blocking
    | .critical => .critical
    | .warning => .warning
    | .merge => severityScan rest

/-- `PRReviewOrchestrator._determine_final_severity` (orchestrator.py
lines 348-370): empty findings roll up to `"merge"`, otherwise the
first-match scan `severityScan` decides. -/
def determine_final_severity (rollup : OrchestratorRollup) : Severity :=
  if rollup.findings.isEmpty then .merge
  else severityScan rollup.findings

/-- `PRReviewOrchestrator._map_severity_to_decision` (orchestrator.py
lines 372-382). -/
def map_severity_to_decision (severity : Severity) : Decision :=
  match severity with
  | .blocking => .block
  | .critical => .needs_changes
  | .warning => .approve_with_warnings
  | .merge => .approve

/-- Rank of a severity in the total order
`merge < warning < critical < blocking` (spec section 8). -/
def sevRank : Severity → Nat
  | .merge => 0
  | .warning => 1
  | .critical => 2
  | .blocking => 3

/-- Join of two severities under the `sevRank` order. -/
def sevMax (a b : Severity) : Severity :=
  if sevRank a < sevRank b then b else a

/-- Modelled from the spec: the severity rollup the spec prescribes
(`rollup_severity(F) = max(severity(f) for f in F)` under
`merge < warning < critical < blocking`, `"merge"` for an empty set); the
source's `_determine_final_severity` is compared against this. -/
def rollup_severity_max (findings : List OrchestratorFinding) : Severity :=
  findings.foldr (fun f acc => sevMax f.severity acc) .merge

/-- `BaseReviewAgent.generate_output` (base.py lines 193-265): compute the
reviewer-level severity from the findings, derive the merge-gate decision
and fix lists, and assemble the `ReviewOutput`.  `check_results` is
accepted and unused, exactly as in the source. -/
def generate_output (name : String) (scope : ReviewScope) (checks : List Check)
    (skips : List Skip) (findings : List Finding)
    (_check_results : List (List (String × String))) : ReviewOutput :=
  let severity : Severity :=
    if findings.isEmpty then .merge
    else if findings.any (fun f => f.severity == .blocking) then .blocking
    else if findings.any (fun f => f.severity == .critical) then .critical
    else .warning
  let gate : MergeGate :=
    if severity == .blocking then
      { decision := .block, must_fix := findings.map (fun f => f.id)
        should_fix := [], notes_for_coding_agent := [] }
    else if severity == .critical then
      { decision := .needs_changes, must_fix := findings.map (fun f => f.id)
        should_fix := [], notes_for_coding_agent := [] }
    else if severity == .warning then
      { decision := .approve_with_warnings, must_fix := []
        should_fix := findings.map (fun f => f.id), notes_for_coding_agent := [] }
    else
      { decision := .approve, must_fix := [], should_fix := []
        notes_for_coding_agent := [] }
  let summary :=
    "Reviewed " ++ toString scope.relevant_files.length ++ " files, found "
      ++ toString findings.length ++ " issues"
  let notes : List String :=
    if findings.isEmpty then []
    else ["Fix " ++ toString findings.length ++ " findings: "
      ++ String.intercalate ", " (findings.map (fun f => f.id))]
  { agent := name
    summary := summary
    severity := severity
    scope := scope
    checks := checks
    skips := skips
    findings := findings
    merge_gate := { gate with notes_for_coding_agent := notes } }

/-- Conversion from `Finding` to `OrchestratorFinding` performed inside
`PRReviewOrchestrator._aggregate_results` (orchestrator.py lines 211-222):
the single source reviewer becomes the one-element `source_agents` list. -/
def finding_to_orchestrator (agent : String) (f : Finding) : OrchestratorFinding :=
  { id := f.id
    source_agents := [agent]
    title := f.title
    severity := f.severity
    confidence := f.confidence
    evidence := f.evidence
    recommendation := f.recommendation
    suggested_patch := f.suggested_patch
    owner := f.owner
    estimate := f.estimate }

/-- Deduplication key of `PRReviewOrchestrator._dedupe_findings`
(orchestrator.py line 244): the string `f"{title}:{evidence[:100]}"`. -/
def finding_key (f : OrchestratorFinding) : String :=
  f.title ++ ":" ++ takeChars 100 f.evidence

/-- Loop of `PRReviewOrchestrator._dedupe_findings`: `seen` is the set of
keys already emitted (Python `set`, used only for membership), findings
with an unseen key are kept in order, later duplicates are dropped. -/
def dedupeGo : List String → List OrchestratorFinding → List OrchestratorFinding
  | _, [] => []
  | seen, f :: rest =>
    if finding_key f ∈ seen then dedupeGo seen rest
    else f :: dedupeGo (finding_key f :: seen) rest

/-- `PRReviewOrchestrator._dedupe_findings` (orchestrator.py lines 236-251). -/
def dedupe_findings (findings : List OrchestratorFinding) : List OrchestratorFinding :=
  dedupeGo [] findings

/-- `PRReviewOrchestrator._aggregate_results` (orchestrator.py lines
194-234): collect every finding of every successful subagent result, tag it
with its source agent, dedupe, and return a rollup whose severity/decision/
rationale placeholders are overridden later by `review_pr`. -/
def aggregate_results (subagent_results : List ReviewOutput) : OrchestratorRollup :=
  let all_findings :=
    (subagent_results.map
      (fun r => r.findings.map (finding_to_orchestrator r.agent))).flatten
  { final_severity := .merge
    final_decision := .approve
    rationale := ""
    findings := dedupe_findings all_findings }

/-- `PRReviewOrchestrator._generate_tool_plan` (orchestrator.py lines
253-298): every subagent check becomes a recommended check scoped to the
full changed-file set; skips are carried over; no deduplication. -/
def generate_tool_plan (changed_files : List String)
    (subagent_results : List ReviewOutput) : OrchestratorToolPlan :=
  { recommended_checks :=
      (subagent_results.map (fun r => r.checks.map (fun c =>
        ({ name := c.name, required := c.required, commands := c.commands
           scope := changed_files, why := c.why
           expected_signal := c.expected_signal } : OrchestratorToolCheck)))).flatten
    skipped_checks :=
      (subagent_results.map (fun r => r.skips.map (fun s =>
        ({ name := s.name, why_safe := s.why_safe
           when_to_run := s.when_to_run } : OrchestratorSkippedCheck)))).flatten
    observed_outputs := [] }

/-- Loop of `PRReviewOrchestrator._generate_summary` computing
`risk_level`: start at `"low"`, break to `"high"` on the first
critical/blocking subagent severity, move to `"medium"` on a warning. -/
def summaryRiskLevel : String → List ReviewOutput → String
  | risk, [] => risk
  | risk, r :: rest =>
    if r.severity == .critical || r.severity == .blocking then "high"
    else if r.severity == .warning && risk != "high" then
      summaryRiskLevel "medium" rest
    else summaryRiskLevel risk rest

/-- `PRReviewOrchestrator._infer_change_intent` (orchestrator.py lines
328-346). -/
def infer_change_intent (changed_files : List String) (diff : String) : String :=
  if diff == "" then
    "Review of " ++ toString changed_files.length ++ " changed files"
  else
    let diff_lower := strLower diff
    if strContains diff_lower "def " || strContains diff_lower "class " then
      "Implementation of new code"
    else if strContains diff_lower "import " then "Dependency or import changes"
    else if strContains diff_lower "test" then "Test additions or modifications"
    else "Review of " ++ toString changed_files.length ++ " changed files"

/-- `PRReviewOrchestrator._generate_summary` (orchestrator.py lines
300-326). -/
def generate_summary (changed_files : List String) (diff : String)
    (subagent_results : List ReviewOutput) : OrchestratorSummary :=
  { change_intent := infer_change_intent changed_files diff
    risk_level := summaryRiskLevel "low" subagent_results
    high_risk_areas :=
      (subagent_results.filter
        (fun r => r.severity == .critical || r.severity == .blocking)).map
        (fun r => r.agent)
    changed_files_count := changed_files.length }

/-- `PRReviewOrchestrator._generate_rationale` (orchestrator.py lines
384-403). -/
def generate_rationale (final_severity : Severity)
    (rollup : OrchestratorRollup) : String :=
  if final_severity == .merge then "No issues found across all review domains"
  else
    let blocking_count :=
      (rollup.findings.filter (fun f => f.severity == .blocking)).length
    let critical_count :=
      (rollup.findings.filter (fun f => f.severity == .critical)).length
    let warning_count :=
      (rollup.findings.filter (fun f => f.severity == .warning)).length
    let parts : List String :=
      (if blocking_count > 0 then
        [toString blocking_count ++ " blocking issue(s)"] else [])
      ++ (if critical_count > 0 then
        [toString critical_count ++ " critical issue(s)"] else [])
      ++ (if warning_count > 0 then
        [toString warning_count ++ " warning(s)"] else [])
    String.intercalate "; " parts

/-- One reviewer invocation outcome inside `review_pr`'s loop: either the
`ReviewOutput` the subagent returned, or the exception it raised
(`Except.error`), which the orchestrator logs and skips. -/
abbrev SubagentResult := Except Unit ReviewOutput

/-- `PRReviewOrchestrator.review_pr` (orchestrator.py lines 103-172) given
the per-subagent outcomes of its loop: failed subagents are skipped
(`try`/`except`/`continue`), the successes are aggregated, and the final
severity, decision, rationale, tool plan and merge gate are assembled into
the `OrchestratorOutput`. -/
def review_pr (changed_files : List String) (diff : String)
    (results : List SubagentResult) : OrchestratorOutput :=
  let subagent_results := results.filterMap (fun r =>
    match r with
    | .ok o => some o
    | .error _ => none)
  let rollup := aggregate_results subagent_results
  let tool_plan := generate_tool_plan changed_files subagent_results
  let summary := generate_summary changed_files diff subagent_results
  let final_severity := determine_final_severity rollup
  let final_decision := map_severity_to_decision final_severity
  { summary := summary
    tool_plan := tool_plan
    rollup :=
      { final_severity := final_severity
        final_decision := final_decision
        rationale := generate_rationale final_severity rollup
        findings := rollup.findings }
    findings := rollup.findings
    subagent_results := subagent_results
    merge_gate :=
      { decision := final_decision
        must_fix := (rollup.findings.filter (fun f =>
          f.severity == .critical || f.severity == .blocking)).map (fun f => f.id)
        should_fix := (rollup.findings.filter (fun f =>
          f.severity == .warning)).map (fun f => f.id)
        notes_for_coding_agent :=
          ["Address " ++ toString rollup.findings.length ++ " findings"] } }

/-- Example warning-severity orchestrator finding. -/
def warningFindingEx : OrchestratorFinding :=
  { id := "LINT-001"
    source_agents := ["linting"]
    title := "Long line"
    severity := .warning
    confidence := .high
    evidence := "line 10 exceeds 120 chars"
    recommendation := "wrap the line"
    suggested_patch := none
    owner := .dev
    estimate := .S }

/-- Example blocking-severity orchestrator finding. -/
def blockingFindingEx : OrchestratorFinding :=
  { id := "SEC-001"
    source_agents := ["security"]
    title := "Hardcoded secret"
    severity := .blocking
    confidence := .high
    evidence := "password = \"hunter2\""
    recommendation := "move the secret to the environment"
    suggested_patch := none
    owner := .security
    estimate := .S }

/-- C1: the spec demands an order-independent maximum for the severity
rollup, but `_determine_final_severity` is a first-match scan: on the
finding list `[warning, blocking]` it returns `"warning"` while the maximum
under `merge < warning < critical < blocking` is `"blocking"`.  The scan
also contradicts the function's own docstring ("If ANY subagent returns
blocking -> final blocking"). -/
theorem c1_rollup_first_match_not_max :
    determine_final_severity
      { final_severity := .merge, final_decision := .approve, rationale := ""
        findings := [warningFindingEx, blockingFindingEx] } = .warning
    ∧ rollup_severity_max [warningFindingEx, blockingFindingEx] = .blocking := by
  constructor <;> rfl

/-- C2: a run in which every required reviewer fails still flows through the
normal aggregation path: the empty finding set rolls up to `"merge"` and the
merge gate reports the decision `"approve"` — there is no "review
inconclusive" condition anywhere in the output contract, contradicting the
spec's explicit error-handling requirement (spec section 7, case (c)). -/
theorem c2_zero_reviewers_reports_approve :
    (review_pr ["auth/login.py"] ""
      [.error (), .error (), .error (), .error (), .error (), .error ()]).merge_gate.decision
        = .approve
    ∧ (review_pr ["auth/login.py"] ""
      [.error (), .error (), .error (), .error (), .error (), .error ()]).rollup.final_severity
        = .merge
    ∧ (review_pr ["auth/login.py"] ""
      [.error (), .error (), .error (), .error (), .error (), .error ()]).subagent_results
        = [] := by
  refine ⟨rfl, rfl, rfl⟩

/-- C7: failure isolation in `review_pr`.  A reviewer that raises is skipped
(`try`/`except`/`continue`) and the run is not aborted: the orchestrator
output — rollup findings, severities, tool plan, summary, merge gate — is
exactly the output of the same run without the failing reviewer, so every
other reviewer's findings reach the rollup unchanged, and a complete
`OrchestratorOutput` is produced (`review_pr` is total). -/
theorem c7_failure_isolation (changed_files : List String) (diff : String)
    (xs ys : List SubagentResult) (e : Unit) :
    review_pr changed_files diff (xs ++ .error e :: ys) =
      review_pr changed_files diff (xs ++ ys) := by
  unfold review_pr
  simp [List.filterMap_append, List.filterMap_cons]

/-- Modelled from the spec: the decision mapping of spec section 4.4 step 4
(blocking maps to block, critical to needs_changes, warning to
approve_with_warnings, merge to approve). -/
def spec_decision_of (severity : Severity) : Decision :=
  match severity with
  | .blocking => .block
  | .critical => .needs_changes
  | .warning => .approve_with_warnings
  | .merge => .approve

/-- Modelled from the spec: "must_fix = every blocking/critical finding id"
for a reviewer's own finding list. -/
def spec_must_fix_ids (findings : List Finding) : List String :=
  (findings.filter (fun f =>
    f.severity == .blocking || f.severity == .critical)).map (fun f => f.id)

/-- Modelled from the spec: "must_fix = every blocking/critical finding id"
over the orchestrator's deduplicated findings. -/
def spec_must_fix_ids_orch (findings : List OrchestratorFinding) : List String :=
  (findings.filter (fun f =>
    f.severity == .blocking || f.severity == .critical)).map (fun f => f.id)

/-- Modelled from the spec: "should_fix = every warning finding id" over the
orchestrator's deduplicated findings. -/
def spec_should_fix_ids_orch (findings : List OrchestratorFinding) : List String :=
  (findings.filter (fun f => f.severity == .warning)).map (fun f => f.id)

/-- Example blocking reviewer-level finding. -/
def blockingFindingF : Finding :=
  { id := "SEC-001"
    title := "Hardcoded secret"
    severity := .blocking
    confidence := .high
    owner := .security
    estimate := .S
    evidence := "password = \"x\""
    risk := "credential leak"
    recommendation := "move the secret to the environment"
    suggested_patch := none }

/-- Example warning reviewer-level finding. -/
def warningFindingF : Finding :=
  { id := "DOC-001"
    title := "Missing docstring"
    severity := .warning
    confidence := .high
    owner := .docs
    estimate := .S
    evidence := "public function without docstring"
    risk := "user confusion"
    recommendation := "add a docstring"
    suggested_patch := none }

/-- Example review scope. -/
def scopeEx : ReviewScope :=
  { relevant_files := ["auth/login.py"], ignored_files := [], reasoning := "r" }

/-- C3 counterexample: per-reviewer, `generate_output` on a blocking plus a
warning finding puts EVERY finding id into `must_fix` — the warning finding
`DOC-001` included — whereas the claim says `must_fix` is exactly the ids of
the blocking/critical findings (`SEC-001` only). -/
theorem c3_per_reviewer_must_fix_counterexample :
    (generate_output "security" scopeEx [] []
        [blockingFindingF, warningFindingF] []).merge_gate.must_fix
      = ["SEC-001", "DOC-001"]
    ∧ spec_must_fix_ids [blockingFindingF, warningFindingF] = ["SEC-001"]
    ∧ (["SEC-001", "DOC-001"] : List String) ≠ ["SEC-001"] := by
  refine ⟨rfl, rfl, by decide⟩

/-- C3 amended: the severity-to-decision mapping is as the spec states at
both levels, and the orchestrator-level fix lists are exactly as claimed
(`must_fix` = ids of critical/blocking rollup findings, `should_fix` = ids
of warning rollup findings, hence empty when the severity is merge).
Per-reviewer, however, `must_fix` is the ids of ALL the reviewer's findings
whenever its severity is blocking or critical (warnings included), and
`should_fix` is the ids of ALL findings when the severity is warning. -/
theorem c3_decision_mapping_amended :
    (∀ s, map_severity_to_decision s = spec_decision_of s)
    ∧ (∀ (name : String) (scope : ReviewScope) (checks : List Check)
        (skips : List Skip) (findings : List Finding)
        (cr : List (List (String × String))),
      (generate_output name scope checks skips findings cr).merge_gate.decision
          = spec_decision_of (generate_output name scope checks skips findings cr).severity
        ∧ (generate_output name scope checks skips findings cr).merge_gate.must_fix
          = (if (generate_output name scope checks skips findings cr).severity = .blocking
                ∨ (generate_output name scope checks skips findings cr).severity = .critical
             then findings.map (fun f => f.id) else [])
        ∧ (generate_output name scope checks skips findings cr).merge_gate.should_fix
          = (if (generate_output name scope checks skips findings cr).severity = .warning
             then findings.map (fun f => f.id) else []))
    ∧ (∀ (changed_files : List String) (diff : String)
        (results : List SubagentResult),
      (review_pr changed_files diff results).merge_gate.decision
          = spec_decision_of (review_pr changed_files diff results).rollup.final_severity
        ∧ (review_pr changed_files diff results).rollup.final_decision
          = (review_pr changed_files diff results).merge_gate.decision
        ∧ (review_pr changed_files diff results).merge_gate.must_fix
          = spec_must_fix_ids_orch (review_pr changed_files diff results).rollup.findings
        ∧ (review_pr changed_files diff results).merge_gate.should_fix
          = spec_should_fix_ids_orch (review_pr changed_files diff results).rollup.findings) := by
  refine ⟨fun s => by cases s <;> rfl, ?_, ?_⟩
  · intro name scope checks skips findings cr
    unfold generate_output
    by_cases h1 : findings.isEmpty
    · simp [h1, spec_decision_of]
    · by_cases h2 : findings.any (fun f => f.severity == .blocking)
      · simp [h1, h2, spec_decision_of]
      · by_cases h3 : findings.any (fun f => f.severity == .critical)
        · simp [h1, h2, h3, spec_decision_of]
        · simp [h1, h2, h3, spec_decision_of]
  · intro changed_files diff results
    unfold review_pr
    refine ⟨?_, rfl, ?_, rfl⟩
    · simp only [map_severity_to_decision, spec_decision_of]
    · simp only [spec_must_fix_ids_orch]
      exact congrArg _ (List.filter_congr (fun f _ => by
        cases hf : f.severity <;> rfl))

/-- The dedup loop only ever keeps elements of its input, in input order. -/
theorem dedupeGo_sublist (fs : List OrchestratorFinding) :
    ∀ seen, (dedupeGo seen fs).Sublist fs := by
  induction fs with
  | nil => intro seen; simp [dedupeGo]
  | cons g t ih =>
    intro seen
    unfold dedupeGo
    by_cases h : finding_key g ∈ seen
    · rw [if_pos h]
      exact (ih seen).cons g
    · rw [if_neg h]
      exact (ih _).cons₂ g

/-- Every input finding's key survives dedup (or was already seen). -/
theorem dedupeGo_keys_complete (fs : List OrchestratorFinding) :
    ∀ (seen : List String) (f : OrchestratorFinding), f ∈ fs →
      finding_key f ∈ seen ∨ finding_key f ∈ (dedupeGo seen fs).map finding_key := by
  induction fs with
  | nil => intro seen f hf; cases hf
  | cons g t ih =>
    intro seen f hf
    unfold dedupeGo
    by_cases h : finding_key g ∈ seen
    · rw [if_pos h]
      rcases List.mem_cons.mp hf with rfl | hmem
      · exact Or.inl h
      · exact ih seen f hmem
    · rw [if_neg h]
      rcases List.mem_cons.mp hf with rfl | hmem
      · right
        simp
      · rcases ih (finding_key g :: seen) f hmem with hs | hd
        · rcases List.mem_cons.mp hs with heq | hs'
          · right
            simp [heq]
          · exact Or.inl hs'
        · right
          simp [hd]

/-- The keys of the dedup output are distinct and avoid the seen set. -/
theorem dedupeGo_keys_nodup (fs : List OrchestratorFinding) :
    ∀ seen, ((dedupeGo seen fs).map finding_key).Nodup
      ∧ ∀ k ∈ (dedupeGo seen fs).map finding_key, k ∉ seen := by
  induction fs with
  | nil => intro seen; simp [dedupeGo]
  | cons g t ih =>
    intro seen
    unfold dedupeGo
    by_cases h : finding_key g ∈ seen
    · rw [if_pos h]
      exact ih seen
    · rw [if_neg h]
      obtain ⟨hnd, hdis⟩ := ih (finding_key g :: seen)
      refine ⟨?_, ?_⟩
      · simp only [List.map_cons, List.nodup_cons]
        exact ⟨fun hmem => (hdis _ hmem) (List.mem_cons_self _ _), hnd⟩
      · intro k hk
        simp only [List.map_cons, List.mem_cons] at hk
        rcases hk with rfl | hk
        · exact h
        · exact fun hks => (hdis k hk) (List.mem_cons_of_mem _ hks)

/-- A list whose keys are distinct and unseen passes through dedup intact. -/
theorem dedupeGo_eq_self (fs : List OrchestratorFinding) :
    ∀ seen, (fs.map finding_key).Nodup →
      (∀ k ∈ fs.map finding_key, k ∉ seen) → dedupeGo seen fs = fs := by
  induction fs with
  | nil => intro seen _ _; rfl
  | cons g t ih =>
    intro seen hnd hdis
    rw [List.map_cons] at hnd
    have hnd' := List.nodup_cons.mp hnd
    unfold dedupeGo
    rw [if_neg (hdis _ (by simp))]
    congr 1
    refine ih _ hnd'.2 ?_
    intro k hk hks
    rcases List.mem_cons.mp hks with rfl | hmem
    · exact hnd'.1 hk
    · exact hdis k (List.mem_cons_of_mem _ hk) hmem

/-- Duplicate orchestrator finding as first raised by the security agent. -/
def dupSecFinding : OrchestratorFinding :=
  { id := "SEC-001"
    source_agents := ["security"]
    title := "Hardcoded secret"
    severity := .blocking
    confidence := .high
    evidence := "password = \"x\""
    recommendation := "move the secret to the environment"
    suggested_patch := none
    owner := .security
    estimate := .S }

/-- The same issue raised independently by the linting agent: identical
title and evidence, different id and source agent. -/
def dupLintFinding : OrchestratorFinding :=
  { id := "LINT-009"
    source_agents := ["linting"]
    title := "Hardcoded secret"
    severity := .warning
    confidence := .medium
    evidence := "password = \"x\""
    recommendation := "use an environment variable"
    suggested_patch := none
    owner := .dev
    estimate := .S }

/-- A finding whose title contains a colon; its `(title, evidence[:100])`
pair differs from `colonFindingB`'s, yet both produce the key `"A:B:C"`. -/
def colonFindingA : OrchestratorFinding :=
  { id := "X-1"
    source_agents := ["security"]
    title := "A:B"
    severity := .warning
    confidence := .high
    evidence := "C"
    recommendation := "r"
    suggested_patch := none
    owner := .dev
    estimate := .S }

/-- Companion to `colonFindingA`: a different `(title, evidence)` pair with
the same concatenated dedup key. -/
def colonFindingB : OrchestratorFinding :=
  { id := "X-2"
    source_agents := ["linting"]
    title := "A"
    severity := .warning
    confidence := .high
    evidence := "B:C"
    recommendation := "r"
    suggested_patch := none
    owner := .dev
    estimate := .S }

/-- C4 counterexample: two findings with an identical key from different
reviewers collapse to the FIRST finding unchanged — its `source_agents`
stays `["security"]`, not the union `["security", "linting"]`.  Moreover
the key is the concatenated string `title ++ ":" ++ evidence[:100]`, not the
pair: `colonFindingA`/`colonFindingB` have different
`(title, evidence[:100])` pairs yet dedup drops the second. -/
theorem c4_dedupe_counterexample :
    dedupe_findings [dupSecFinding, dupLintFinding] = [dupSecFinding]
    ∧ dupSecFinding.source_agents = ["security"]
    ∧ (["security"] : List String) ≠ ["security", "linting"]
    ∧ (colonFindingA.title, takeChars 100 colonFindingA.evidence)
        ≠ (colonFindingB.title, takeChars 100 colonFindingB.evidence)
    ∧ dedupe_findings [colonFindingA, colonFindingB] = [colonFindingA] := by
  refine ⟨by decide, rfl, by decide, by decide, by decide⟩

/-- C4 amended: deduplication keys each finding by the string
`title ++ ":" ++ evidence[:100]` (distinct `(title, evidence)` pairs can
collide); the first occurrence of each key is kept verbatim and in order
(the output is a sublist of the input with pairwise-distinct keys), every
input key is represented, the operation is idempotent, and two findings
with an identical key collapse to the first one unchanged — its
`source_agents` remains the first reviewer's list, with no union taken. -/
theorem c4_dedupe_amended :
    (∀ fs, dedupe_findings (dedupe_findings fs) = dedupe_findings fs)
    ∧ (∀ fs, (dedupe_findings fs).Sublist fs)
    ∧ (∀ fs, ((dedupe_findings fs).map finding_key).Nodup)
    ∧ (∀ fs, ∀ f ∈ fs, finding_key f ∈ (dedupe_findings fs).map finding_key)
    ∧ (∀ a b : OrchestratorFinding, finding_key a = finding_key b →
        dedupe_findings [a, b] = [a]) := by
  refine ⟨?_, ?_, ?_, ?_, ?_⟩
  · intro fs
    exact dedupeGo_eq_self _ [] (dedupeGo_keys_nodup fs []).1 (by simp)
  · intro fs
    exact dedupeGo_sublist fs []
  · intro fs
    exact (dedupeGo_keys_nodup fs []).1
  · intro fs f hf
    rcases dedupeGo_keys_complete fs [] f hf with hs | hd
    · cases hs
    · exact hd
  · intro a b hab
    simp [dedupe_findings, dedupeGo, hab]

/-- C4 witness: the amended theorem applied at concrete inputs — the key of
a singleton's finding survives dedup, and the two duplicate example
findings collapse to the first. -/
theorem c4_dedupe_amended_witness :
    finding_key dupSecFinding ∈ (dedupe_findings [dupSecFinding]).map finding_key
    ∧ dedupe_findings [dupSecFinding, dupLintFinding] = [dupSecFinding] :=
  ⟨c4_dedupe_amended.2.2.2.1 [dupSecFinding] dupSecFinding (by decide),
   c4_dedupe_amended.2.2.2.2 dupSecFinding dupLintFinding (by decide)⟩

/-- Finding-level severity of `agents/review/contracts.py`
(`Literal["warning", "critical", "blocking"]` — no `"merge"` value at
finding granularity). -/
inductive FindingSeverity where
  | warning
  | critical
  | blocking
deriving DecidableEq, Repr

/-- The finding-level severity read at review level. -/
def FindingSeverity.toSeverity : FindingSeverity → Severity
  | .warning => .warning
  | .critical => .critical
  | .blocking => .blocking

/-- `contracts.Finding` (used by the diff-scoper and the
`agents/documentation.py` reviewer). -/
structure ContractFinding where
  id : String
  title : String
  severity : FindingSeverity
  confidence : Confidence
  owner : Owner
  estimate : Estimate
  evidence : String
  risk : String
  recommendation : String
  suggested_patch : Option String
deriving DecidableEq, Repr

/-- Severity computation of `DocumentationReviewer.review`
(agents/documentation.py lines 317-327): partition the findings by severity
and pick blocking, else critical, else warning, else `"merge"`. -/
def documentation_severity (findings : List ContractFinding) : Severity :=
  let critical_findings := findings.filter (fun f => f.severity == FindingSeverity.critical)
  let blocking_findings := findings.filter (fun f => f.severity == FindingSeverity.blocking)
  let warning_findings := findings.filter (fun f => f.severity == FindingSeverity.warning)
  if !blocking_findings.isEmpty then .blocking
  else if !critical_findings.isEmpty then .critical
  else if !warning_findings.isEmpty then .warning
  else .merge

/-- Modelled from the spec: the overall severity the spec prescribes for a
reviewer — the maximum of its findings' severities under
`merge < warning < critical < blocking`, `"merge"` for no findings. -/
def spec_overall_severity (severities : List Severity) : Severity :=
  severities.foldr sevMax .merge

/-- The first-nonempty-tier conditional over merge-free severities computes
exactly the fold of `sevMax` over them. -/
theorem computeSeverity_eq_max {α : Type} (g : α → Severity) (l : List α)
    (h : ∀ x ∈ l, g x ≠ .merge) :
    (if l.isEmpty then Severity.merge
     else if l.any (fun x => g x == Severity.blocking) then Severity.blocking
     else if l.any (fun x => g x == Severity.critical) then Severity.critical
     else Severity.warning) = (l.map g).foldr sevMax .merge := by
  induction l with
  | nil => rfl
  | cons a t ih =>
    have ht : ∀ x ∈ t, g x ≠ Severity.merge := fun x hx => h x (List.mem_cons_of_mem _ hx)
    have ha : g a ≠ Severity.merge := h a (List.mem_cons_self _ _)
    rw [List.map_cons, List.foldr_cons, ← ih ht]
    cases t with
    | nil =>
      cases hga : g a <;>
        first
          | exact absurd hga ha
          | simp [List.any_cons, hga, sevMax, sevRank]
    | cons b t' =>
      by_cases hb : (b :: t').any (fun x => g x == Severity.blocking) = true
      <;> by_cases hc : (b :: t').any (fun x => g x == Severity.critical) = true
      <;> cases hga : g a
      <;> first
        | exact absurd hga ha
        | simp [List.any_cons, hga, hb, hc, sevMax, sevRank]

/-- A filter is empty exactly when no element satisfies the predicate. -/
theorem filter_isEmpty_not_any {α : Type} (p : α → Bool) (l : List α) :
    (l.filter p).isEmpty = !l.any p := by
  induction l with
  | nil => rfl
  | cons a t ih =>
    by_cases hp : p a = true <;> simp [List.filter_cons, List.any_cons, hp, ih]

/-- Pointwise-equal predicates give equal `any`. -/
theorem any_congr_pt {α : Type} {p q : α → Bool} (l : List α) (h : ∀ a, p a = q a) :
    l.any p = l.any q := by
  induction l with
  | nil => rfl
  | cons a t ih => simp [List.any_cons, h a, ih]

/-- The nonempty-tier conditional never produces the merge severity. -/
theorem tierConditional_ne_merge (c1 c2 : Bool) :
    (if c1 = true then Severity.blocking
     else if c2 = true then Severity.critical
     else Severity.warning) ≠ Severity.merge := by
  cases c1 <;> cases c2 <;> simp

/-- C6: both severity computations a reviewer performs — the one of
`BaseReviewAgent.generate_output` and the one of
`DocumentationReviewer.review` — equal the maximum severity among the
reviewer's own findings (under `merge < warning < critical < blocking`,
where contract findings carry no merge severity and model findings are
assumed merge-free as the spec's Finding invariant requires), and equal
`"merge"` exactly when the finding list is empty. -/
theorem c6_reviewer_severity_is_max :
    (∀ (name : String) (scope : ReviewScope) (checks : List Check)
        (skips : List Skip) (findings : List Finding)
        (cr : List (List (String × String))),
      (∀ f ∈ findings, f.severity ≠ .merge) →
        (generate_output name scope checks skips findings cr).severity
            = spec_overall_severity (findings.map (fun f => f.severity))
          ∧ ((generate_output name scope checks skips findings cr).severity = .merge
            ↔ findings = []))
    ∧ (∀ findings : List ContractFinding,
        documentation_severity findings
            = spec_overall_severity (findings.map (fun f => f.severity.toSeverity))
          ∧ (documentation_severity findings = .merge ↔ findings = [])) := by
  constructor
  · intro name scope checks skips findings cr h
    have hsev : (generate_output name scope checks skips findings cr).severity
        = (if findings.isEmpty then Severity.merge
           else if findings.any (fun f => f.severity == Severity.blocking) then Severity.blocking
           else if findings.any (fun f => f.severity == Severity.critical) then Severity.critical
           else Severity.warning) := rfl
    constructor
    · rw [hsev]
      unfold spec_overall_severity
      exact computeSeverity_eq_max (fun f => f.severity) findings h
    · rw [hsev]
      cases findings with
      | nil => simp
      | cons f t =>
        rw [show (f :: t).isEmpty = false from rfl]
        simp only [Bool.false_eq_true, if_false]
        exact ⟨fun hmerge => absurd hmerge (tierConditional_ne_merge _ _),
          fun hnil => by cases hnil⟩
  · intro findings
    have hmap : ∀ f ∈ findings, f.severity.toSeverity ≠ Severity.merge := by
      intro f _
      cases f.severity <;> simp [FindingSeverity.toSeverity]
    have hpt : ∀ f : ContractFinding,
        (f.severity == FindingSeverity.blocking)
            = (f.severity.toSeverity == Severity.blocking)
          ∧ (f.severity == FindingSeverity.critical)
            = (f.severity.toSeverity == Severity.critical)
          ∧ (f.severity == FindingSeverity.warning)
            = (f.severity.toSeverity == Severity.warning) :=
      fun f => by cases f.severity <;> exact ⟨rfl, rfl, rfl⟩
    have hdoc : documentation_severity findings
        = (if findings.isEmpty then Severity.merge
           else if findings.any (fun f => f.severity.toSeverity == Severity.blocking) then Severity.blocking
           else if findings.any (fun f => f.severity.toSeverity == Severity.critical) then Severity.critical
           else Severity.warning) := by
      simp only [documentation_severity]
      rw [filter_isEmpty_not_any, filter_isEmpty_not_any, filter_isEmpty_not_any]
      simp only [Bool.not_not]
      rw [any_congr_pt findings (fun f => (hpt f).1),
        any_congr_pt findings (fun f => (hpt f).2.1),
        any_congr_pt findings (fun f => (hpt f).2.2)]
      cases findings with
      | nil => rfl
      | cons f t =>
        rw [show (f :: t).isEmpty = false from rfl]
        simp only [Bool.false_eq_true, if_false]
        by_cases hb : ((f :: t).any fun g => g.severity.toSeverity == Severity.blocking) = true
        · simp [hb]
        · by_cases hc : ((f :: t).any fun g => g.severity.toSeverity == Severity.critical) = true
          · simp [hb, hc]
          · have hw : ((f :: t).any fun g => g.severity.toSeverity == Severity.warning) = true := by
              cases hs : f.severity with
              | warning => simp [List.any_cons, hs, FindingSeverity.toSeverity]
              | critical =>
                refine absurd ?_ hc
                simp [List.any_cons, hs, FindingSeverity.toSeverity]
              | blocking =>
                refine absurd ?_ hb
                simp [List.any_cons, hs, FindingSeverity.toSeverity]
            simp [hb, hc, hw]
    constructor
    · rw [hdoc]
      unfold spec_overall_severity
      exact computeSeverity_eq_max (fun f => f.severity.toSeverity) findings hmap
    · rw [hdoc]
      cases findings with
      | nil => simp
      | cons f t =>
        rw [show (f :: t).isEmpty = false from rfl]
        simp only [Bool.false_eq_true, if_false]
        exact ⟨fun hmerge => absurd hmerge (tierConditional_ne_merge _ _),
          fun hnil => by cases hnil⟩

/-- C6 witness: the severity invariant applied to a concrete one-warning
review. -/
theorem c6_reviewer_severity_is_max_witness :
    (generate_output "documentation" scopeEx [] [] [warningFindingF] []).severity
        = spec_overall_severity ([warningFindingF].map (fun f => f.severity))
    ∧ ((generate_output "documentation" scopeEx [] [] [warningFindingF] []).severity
        = .merge ↔ [warningFindingF] = ([] : List Finding)) :=
  c6_reviewer_severity_is_max.1 "documentation" scopeEx [] [] [warningFindingF] []
    (by decide)

/-- The `critical_paths` flag dictionary computed in
`DiffScoperReviewer.review` (diff_scoper.py lines 84-94), one Boolean per
critical-path category. -/
structure CriticalPaths where
  auth : Bool
  security : Bool
  config : Bool
  docs : Bool
  tests : Bool
  critical : Bool
deriving DecidableEq, Repr

/-- `DiffScoperReviewer._classify_risk` (diff_scoper.py lines 160-198):
`any` of the high-risk triggers, else `any` of the medium-risk triggers,
else low. -/
def classify_risk (num_files : Nat) (code_changes : Nat)
    (critical_paths : CriticalPaths) : String :=
  if critical_paths.security || critical_paths.auth
      || decide (code_changes > 500) || decide (num_files > 20) then "high"
  else if critical_paths.config
      || decide (code_changes > 100) || decide (num_files > 5) then "medium"
  else "low"

/-- Modelled from the spec: risk classification evaluated in order, first
match wins — high on security/auth flag or lines > 500 or files > 20;
otherwise medium on config flag or lines > 100 or files > 5; otherwise
low (spec section 4.3). -/
def spec_risk_classification (files_changed total_changed_lines : Nat)
    (security_flag auth_flag config_flag : Bool) : String :=
  if security_flag = true ∨ auth_flag = true
      ∨ total_changed_lines > 500 ∨ files_changed > 20 then "high"
  else if config_flag = true
      ∨ total_changed_lines > 100 ∨ files_changed > 5 then "medium"
  else "low"

/-- Critical-path flags all off. -/
def noCriticalPaths : CriticalPaths :=
  { auth := false, security := false, config := false
    docs := false, tests := false, critical := false }

/-- C8: the diff-scoper's risk classification agrees with the spec's
ordered tiers on every input, and in particular 25 changed files with 600
changed lines and no critical-path flags classify as high risk from the
volume thresholds alone. -/
theorem c8_classify_risk_matches_spec :
    (∀ (num_files code_changes : Nat) (cp : CriticalPaths),
      classify_risk num_files code_changes cp
        = spec_risk_classification num_files code_changes cp.security cp.auth cp.config)
    ∧ classify_risk 25 600 noCriticalPaths = "high" := by
  constructor
  · intro num_files code_changes cp
    simp only [classify_risk, spec_risk_classification, Bool.or_eq_true,
      decide_eq_true_eq, or_assoc]
  · rfl

/-- Python `str.title` restricted to its behavior on ASCII text: the first
letter of each alphabetic run is uppercased, the rest lowercased.  The
Boolean argument tracks whether the previous character was alphabetic. -/
def pyTitleList : List Char → Bool → List Char
  | [], _ => []
  | c :: t, prevAlpha =>
    (if prevAlpha then c.toLower else c.toUpper) :: pyTitleList t c.isAlpha

/-- Python `s.title()` as used on agent names in the routing findings. -/
def pyTitle (s : String) : String :=
  String.mk (pyTitleList s.toList false)

/-- The evidence-file selection inside
`DiffScoperReviewer._create_routing_findings` (diff_scoper.py lines
246-253): the first changed file containing one of the routing patterns,
else the first changed file, else `"unknown"`. -/
def routing_evidence_file (agent : String) (changed_files : List String) : String :=
  match changed_files.find? (fun f =>
    [agent, "security", "auth", "config", "docs", ".py"].any
      (fun pattern => strContains (strLower f) pattern)) with
  | some f => f
  | none =>
    match changed_files with
    | [] => "unknown"
    | f :: _ => f

/-- The `routing_relevance` dictionary of
`DiffScoperReviewer._create_routing_findings` (diff_scoper.py lines
217-242) as an insertion-ordered association list.  The `"security"` key is
written by the security flag and overwritten in place by the auth flag; the
`"docs"` entry requires `len(changed_files) == critical_paths.get("docs_count", 0)`
and `"docs_count"` is never set, so it compares against `0`. -/
def routing_relevance (changed_files : List String) (cp : CriticalPaths)
    (risk_level : String) : List (String × String) :=
  (if cp.security || cp.auth then
    [("security",
      if cp.auth then "Authentication/authorization changes, requires security review"
      else "Security-related files modified, requires security review")]
  else [])
  ++ (if cp.config then
    [("devops", "Configuration files changed, requires devops review")] else [])
  ++ (if cp.critical then
    [("architecture", "Core code paths modified, requires architecture review")] else [])
  ++ (if !(changed_files.filter (fun f => strEndsWith f ".py")).isEmpty then
    [("code",
      if risk_level == "high" then "Python code changes with high risk, requires thorough code review"
      else "Python code changes, requires code review")]
  else [])
  ++ (if cp.docs && decide (changed_files.length = 0) then
    [("docs", "Documentation changes, requires docs review")] else [])

/-- One routing finding of `DiffScoperReviewer._create_routing_findings`
(diff_scoper.py lines 255-266). -/
def route_finding (changed_files : List String) (risk_level : String)
    (agent reason : String) : ContractFinding :=
  { id := "route-" ++ agent
    title := "Route to " ++ pyTitle agent ++ " Reviewer"
    severity := if risk_level == "high" then .warning else .critical
    confidence := .high
    owner :=
      if agent == "dev" then .dev
      else if agent == "docs" then .docs
      else if agent == "devops" then .devops
      else if agent == "security" then .security
      else .dev
    estimate := .S
    evidence := "File: " ++ routing_evidence_file agent changed_files
    risk := risk_level
    recommendation := reason
    suggested_patch := none }

/-- The routing findings proper: one finding per `routing_relevance` entry
(the loop at diff_scoper.py lines 245-266). -/
def route_findings_part (changed_files : List String) (cp : CriticalPaths)
    (risk_level : String) : List ContractFinding :=
  (routing_relevance changed_files cp risk_level).map
    (fun ar => route_finding changed_files risk_level ar.1 ar.2)

/-- The extra risk-classification finding appended when risk is high
(diff_scoper.py lines 269-281). -/
def risk_classification_part (changed_files : List String)
    (risk_level : String) : List ContractFinding :=
  if risk_level == "high" then
    [{ id := "risk-classification"
       title := "High Risk Change Detected"
       severity := .critical
       confidence := .high
       owner := .dev
       estimate := .M
       evidence := "Files changed: " ++ toString changed_files.length
         ++ ", Risk level: " ++ risk_level
       risk := risk_level
       recommendation := "This change touches critical paths or has significant impact. Route to specialized reviewers."
       suggested_patch := none }]
  else []

/-- `DiffScoperReviewer._create_routing_findings` (diff_scoper.py lines
200-283): the routing findings followed by the optional risk finding. -/
def create_routing_findings (changed_files : List String) (cp : CriticalPaths)
    (risk_level : String) : List ContractFinding :=
  route_findings_part changed_files cp risk_level
    ++ risk_classification_part changed_files risk_level

/-- C10: every routing finding the diff-scoper emits carries severity
warning when the classified risk is `"high"` and severity critical for any
other risk (so for `"medium"` and `"low"`): lower-risk changes produce
higher-severity routing findings. -/
theorem c10_routing_finding_severity
    (changed_files : List String) (cp : CriticalPaths) (risk_level : String)
    (f : ContractFinding)
    (hf : f ∈ route_findings_part changed_files cp risk_level) :
    f.severity = if risk_level == "high" then FindingSeverity.warning
      else FindingSeverity.critical := by
  obtain ⟨ar, _, rfl⟩ := List.mem_map.mp hf
  rfl

/-- Critical-path flags with only the auth flag set. -/
def cpAuthEx : CriticalPaths :=
  { auth := true, security := false, config := false
    docs := false, tests := false, critical := false }

/-- Routing finding of a concrete low-risk auth-flagged run. -/
def routeSecLowEx : ContractFinding :=
  route_finding ["auth/login.py"] "low" "security"
    "Authentication/authorization changes, requires security review"

/-- C10 witness: the routing-severity theorem applied to a concrete
low-risk run with the auth flag set — its security routing finding has
severity critical. -/
theorem c10_routing_finding_severity_witness :
    routeSecLowEx.severity
      = if ("low" : String) == "high" then FindingSeverity.warning
        else FindingSeverity.critical :=
  c10_routing_finding_severity ["auth/login.py"] cpAuthEx "low" routeSecLowEx
    (show routeSecLowEx ∈ route_findings_part ["auth/login.py"] cpAuthEx "low" by
      have h : route_findings_part ["auth/login.py"] cpAuthEx "low"
          = [routeSecLowEx,
             route_finding ["auth/login.py"] "low" "code"
               "Python code changes, requires code review"] := rfl
      rw [h]
      exact List.mem_cons_self _ _)

/-- High-signal path fragments of
`SecurityReviewAgent._is_security_relevant` (security.py lines 78-84). -/
def security_patterns : List String :=
  ["auth/", "security/", "iam/", "permissions/", "middleware/"]

/-- Config-file fragments of `_is_security_relevant` (security.py 86-92). -/
def config_patterns : List String :=
  [".yml", ".yaml", "dockerfile", "terraform", "deploy"]

/-- Dependency-file fragments of `_is_security_relevant` (security.py 94-99). -/
def dependency_patterns : List String :=
  ["pyproject.toml", "requirements", "poetry.lock", "uv.lock"]

/-- `SecurityReviewAgent._is_security_relevant` (security.py lines 76-115):
substring tests of each pattern against the lowercased path. -/
def is_security_relevant (file_path : String) : Bool :=
  let lower_path := strLower file_path
  security_patterns.any (fun p => strContains lower_path p)
  || config_patterns.any (fun p => strContains lower_path p)
  || dependency_patterns.any (fun p => strContains lower_path p)

/-- `SecurityReviewAgent.analyze_changes` (security.py lines 45-74): split
the changed files into security-relevant and ignored, in input order. -/
def security_analyze_changes (changed_files : List String) (_diff : String) :
    ReviewScope :=
  let relevant := changed_files.filter is_security_relevant
  let ignored := changed_files.filter (fun f => !is_security_relevant f)
  { relevant_files := relevant
    ignored_files := ignored
    reasoning := "Reviewed " ++ toString relevant.length
      ++ " security-relevant file(s), ignored " ++ toString ignored.length
      ++ " non-security file(s)" }

/-- `SecurityReviewAgent.determine_checks` (security.py lines 117-154):
three grep-based checks over the relevant files, or none when the scope is
empty.  The agent only PROPOSES these commands; it never scans the diff and
never constructs a `Finding`. -/
def security_determine_checks (scope : ReviewScope) : List Check :=
  if scope.relevant_files.isEmpty then []
  else
    [{ name := "secrets_scan"
       required := true
       commands := ["grep -rE '(password|token|secret|api[_-]?key|private[_-]?key|aws[_-]?access[_-]?key)' "
         ++ String.intercalate " " scope.relevant_files ++ " || echo 'No secrets found'"]
       why := "Scan for hardcoded secrets and sensitive data"
       expected_signal := "No secrets found or matches reported" },
     { name := "subprocess_injection"
       required := true
       commands := ["grep -rE 'subprocess\\.(run|call|Popen)' "
         ++ String.intercalate " " scope.relevant_files]
       why := "Check for subprocess usage that may be vulnerable to injection"
       expected_signal := "All subprocess calls reviewed for injection risk" },
     { name := "eval_usage"
       required := true
       commands := ["grep -rE '(eval|exec\\(\\(|compile\\()' "
         ++ String.intercalate " " scope.relevant_files]
       why := "Check for eval/exec usage that may enable code injection"
       expected_signal := "No unsafe eval/exec usage found" }]

/-- The non-LLM branch of `PRReviewOrchestrator._run_subagent`
(orchestrator.py lines 183-190): scope and checks come from the agent,
`skips`, `findings` and `check_results` are the empty lists. -/
def run_subagent_no_llm (agent_name : String)
    (analyze : List String → String → ReviewScope)
    (determine : ReviewScope → List Check)
    (changed_files : List String) (diff : String) : ReviewOutput :=
  let scope := analyze changed_files diff
  let checks := determine scope
  generate_output agent_name scope checks [] [] []

/-- The non-LLM subagent path passes the empty finding list into
`generate_output`. -/
theorem run_subagent_no_llm_findings (agent_name : String)
    (analyze : List String → String → ReviewScope)
    (determine : ReviewScope → List Check)
    (changed_files : List String) (diff : String) :
    (run_subagent_no_llm agent_name analyze determine changed_files diff).findings
      = [] := rfl

/-- Collecting the successes of an all-success non-LLM result list recovers
the outputs. -/
theorem no_llm_filterMap (changed_files : List String) (diff : String)
    (agents : List (String × (List String → String → ReviewScope)
      × (ReviewScope → List Check))) :
    (agents.map (fun a =>
      (Except.ok (run_subagent_no_llm a.1 a.2.1 a.2.2 changed_files diff) :
        SubagentResult))).filterMap (fun r =>
      match r with
      | .ok o => some o
      | .error _ => none)
      = agents.map (fun a => run_subagent_no_llm a.1 a.2.1 a.2.2 changed_files diff) := by
  induction agents with
  | nil => rfl
  | cons a t ih => simp only [List.map_cons, List.filterMap_cons, ih]

/-- Non-LLM outputs have no findings, so they contribute no orchestrator
findings. -/
theorem no_llm_flatten (changed_files : List String) (diff : String)
    (agents : List (String × (List String → String → ReviewScope)
      × (ReviewScope → List Check))) :
    ((agents.map (fun a =>
      run_subagent_no_llm a.1 a.2.1 a.2.2 changed_files diff)).map
      (fun r => r.findings.map (finding_to_orchestrator r.agent))).flatten
      = ([] : List OrchestratorFinding) := by
  induction agents with
  | nil => rfl
  | cons a t ih =>
    simpa only [List.map_cons, List.flatten_cons, run_subagent_no_llm_findings,
      List.map_nil, List.nil_append] using ih

/-- The diff of C5's scenario: a hunk adding a hardcoded password. -/
def secDiffEx : String :=
  "+++ b/auth/login.py\n+password = \"hunter2\"\n"

/-- C5: on a run whose changed files include `auth/login.py` and whose diff
contains a hardcoded password, the security reviewer (non-LLM path) emits
NO findings at all — its output severity is merge and its gate approves —
and more generally every non-LLM orchestrator run ends with the final
decision `"approve"`, never `"block"`: `_run_subagent` hands
`generate_output` an empty finding list, so no reviewer heuristic can
block.  This contradicts the spec's scenario B, which the code cannot
realize. -/
theorem c5_security_scenario_approves :
    strContains secDiffEx "password" = true
    ∧ is_security_relevant "auth/login.py" = true
    ∧ (run_subagent_no_llm "security" security_analyze_changes
        security_determine_checks ["auth/login.py"] secDiffEx).findings = []
    ∧ (run_subagent_no_llm "security" security_analyze_changes
        security_determine_checks ["auth/login.py"] secDiffEx).severity = .merge
    ∧ (run_subagent_no_llm "security" security_analyze_changes
        security_determine_checks ["auth/login.py"] secDiffEx).merge_gate.decision
        = .approve
    ∧ (∀ (changed_files : List String) (diff : String)
        (agents : List (String × (List String → String → ReviewScope)
          × (ReviewScope → List Check))),
      (review_pr changed_files diff (agents.map (fun a =>
        Except.ok (run_subagent_no_llm a.1 a.2.1 a.2.2 changed_files diff)))).merge_gate.decision
        = .approve) := by
  refine ⟨by decide, by decide, rfl, rfl, rfl, ?_⟩
  intro changed_files diff agents
  have hd : (review_pr changed_files diff (agents.map (fun a =>
        Except.ok (run_subagent_no_llm a.1 a.2.1 a.2.2 changed_files diff)))).merge_gate.decision
      = map_severity_to_decision (determine_final_severity (aggregate_results
        ((agents.map (fun a =>
          (Except.ok (run_subagent_no_llm a.1 a.2.1 a.2.2 changed_files diff) :
            SubagentResult))).filterMap (fun r =>
          match r with
          | .ok o => some o
          | .error _ => none)))) := rfl
  rw [hd, no_llm_filterMap changed_files diff agents]
  have h2 : aggregate_results (agents.map (fun a =>
        run_subagent_no_llm a.1 a.2.1 a.2.2 changed_files diff))
      = { final_severity := .merge, final_decision := .approve
          rationale := "", findings := [] } := by
    unfold aggregate_results
    rw [no_llm_flatten changed_files diff agents]
    rfl
  rw [h2]
  rfl

/-- Split off everything before the first occurrence of `sep`: returns
`(before, after)` or `none` when `sep` does not occur (helper for Python
`str.split`). -/
def breakOnSep (sep : List Char) : List Char → Option (List Char × List Char)
  | [] => if sep.isEmpty then some ([], []) else none
  | a :: as =>
    if listStartsWith (a :: as) sep then some ([], List.drop sep.length (a :: as))
    else
      match breakOnSep sep as with
      | none => none
      | some (pre, post) => (some (a :: pre, post) : Option (List Char × List Char))

/-- Fuelled splitting loop: each found separator consumes at least one
character, so fuel equal to the input length never runs out. -/
def splitOnSepFuel (sep : List Char) : Nat → List Char → List (List Char)
  | 0, l => [l]
  | fuel + 1, l =>
    match breakOnSep sep l with
    | none => [l]
    | some (pre, post) => pre :: splitOnSepFuel sep fuel post

/-- Python `s.split(sep)` for a non-empty separator (the review code only
splits on `"**"`; Python rejects an empty separator). -/
def pySplit (s sep : String) : List String :=
  if sep.toList.isEmpty then [s]
  else (splitOnSepFuel sep.toList s.toList.length s.toList).map String.mk

/-- Python `s.rstrip(c)`: drop every trailing occurrence of `c`. -/
def rstripChar (c : Char) (s : String) : String :=
  String.mk ((s.toList.reverse.dropWhile (fun x => x == c)).reverse)

/-- Token of the regex `pattern.replace(".", "\\.").replace("*", ".*")`
built inside `_matches_pattern`: a `*` becomes the any-substring wildcard
`.*`, an escaped dot and every other pattern character (none of the
reviewers' patterns contains a further regex metacharacter) matches itself
literally. -/
inductive GlobTok where
  | lit : Char → GlobTok
  | star : GlobTok
deriving DecidableEq, Repr

/-- Tokenize a glob pattern into regex tokens. -/
def globToks (pattern : List Char) : List GlobTok :=
  pattern.map (fun c => if c == '*' then GlobTok.star else GlobTok.lit c)

/-- Whether the token sequence matches some prefix of the string (regex
matching at the current position; `re.search` needs no full-string match). -/
def toksMatchPre : List GlobTok → List Char → Bool
  | [], _ => true
  | .lit _ :: _, [] => false
  | .lit c :: ts, a :: as => c == a && toksMatchPre ts as
  | .star :: ts, [] => toksMatchPre ts []
  | .star :: ts, a :: as =>
    toksMatchPre ts (a :: as) || toksMatchPre (.star :: ts) as
termination_by ts s => (ts.length, s.length)

/-- `re.search` over the glob-derived regex: the tokens match starting at
some position of the string. -/
def regexSearchGlob (toks : List GlobTok) : List Char → Bool
  | [] => toksMatchPre toks []
  | a :: as => toksMatchPre toks (a :: as) || regexSearchGlob toks as

/-- `_matches_pattern` (agents/documentation.py lines 216-235).  The source
returns early inside the `"**"` branch only when the split has exactly two
parts, falling through to the `"*"` regex branch otherwise; the combined
condition here is equivalent because a pattern without `"**"` never splits
into two parts. -/
def matches_pattern (file_path pattern : String) : Bool :=
  if strContains pattern "**" && decide ((pySplit pattern "**").length = 2) then
    strStartsWith file_path (rstripChar '/' ((pySplit pattern "**").headD ""))
  else if strContains pattern "*" then
    regexSearchGlob (globToks pattern.toList) file_path.toList
  else file_path == pattern

/-- Modelled from the spec: "src/**/*.py matches any .py file under src/" —
a path under `src/` ending in `.py`. -/
def spec_src_py_match (path : String) : Bool :=
  strStartsWith path "src/" && strEndsWith path ".py"

/-- Prefix-of-a-prefix is a prefix. -/
theorem listStartsWith_trans (q : List Char) :
    ∀ (p s : List Char), listStartsWith s p = true → listStartsWith p q = true →
      listStartsWith s q = true := by
  induction q with
  | nil => intro p s _ _; cases s <;> rfl
  | cons b qs ih =>
    intro p s h1 h2
    cases p with
    | nil => cases h2
    | cons a ps =>
      cases s with
      | nil => cases h1
      | cons c ss =>
        rw [show listStartsWith (c :: ss) (a :: ps)
          = (c == a && listStartsWith ss ps) from rfl, Bool.and_eq_true] at h1
        rw [show listStartsWith (a :: ps) (b :: qs)
          = (a == b && listStartsWith ps qs) from rfl, Bool.and_eq_true] at h2
        obtain ⟨hca, hsp⟩ := h1
        obtain ⟨hab, hpq⟩ := h2
        show (c == b && listStartsWith ss qs) = true
        rw [Bool.and_eq_true]
        refine ⟨?_, ih ps ss hsp hpq⟩
        rw [eq_of_beq hca, eq_of_beq hab]
        exact beq_self_eq_true b

/-- C9 counterexample: `"src/util.txt"` is not a `.py` file, yet
`_matches_pattern` accepts it for the pattern `"src/**/*.py"` — the suffix
part after `"**"` is discarded and only the prefix-startswith test runs. -/
theorem c9_matcher_counterexample :
    matches_pattern "src/util.txt" "src/**/*.py" = true
    ∧ spec_src_py_match "src/util.txt" = false := by
  refine ⟨by decide, by decide⟩

/-- C9 amended: for every path, `_matches_pattern` with the pattern
`"src/**/*.py"` tests exactly whether the path starts with `"src"`
(the split prefix `"src/"` right-stripped of `/`).  Hence every `.py` file
under `src/` at any depth does match, but so does every non-`.py` file
under `src/`, and any path whose name merely begins with `"src"`. -/
theorem c9_matcher_amended :
    (∀ path, matches_pattern path "src/**/*.py" = strStartsWith path "src")
    ∧ (∀ path, spec_src_py_match path = true →
        matches_pattern path "src/**/*.py" = true) := by
  have hcond : (strContains "src/**/*.py" "**"
      && decide ((pySplit "src/**/*.py" "**").length = 2)) = true := by decide
  have hpre : rstripChar '/' ((pySplit "src/**/*.py" "**").headD "") = "src" := by
    decide
  have hmain : ∀ path, matches_pattern path "src/**/*.py" = strStartsWith path "src" := by
    intro path
    simp only [matches_pattern, hcond, if_true, hpre]
  refine ⟨hmain, ?_⟩
  intro path hsp
  rw [hmain path]
  simp only [spec_src_py_match, Bool.and_eq_true] at hsp
  exact listStartsWith_trans _ _ _ hsp.1 (by decide)

/-- C9 witness: the amended characterization applied to a deep `.py` file
under `src/`, which does match. -/
theorem c9_matcher_amended_witness :
    spec_src_py_match "src/a/b/c.py" = true
    ∧ matches_pattern "src/a/b/c.py" "src/**/*.py" = true :=
  ⟨by decide, c9_matcher_amended.2 "src/a/b/c.py" (by decide)⟩

end OpencodeReview
